import Mathlib

/-!
Shallow embedding of the grpc-translate-service server (src/server.rs).

The server is a thin façade over a translation provider and a speech
provider.  External provider calls are modelled as oracle functions in a
`Providers` record; each adapter call additionally records a trace entry so
that theorems can speak about which provider calls were attempted.
-/

namespace GrpcTranslate

/-- The proto `LanguageCode` enumeration (variants as used in
src/server.rs and src/client.rs). -/
inductive LanguageCode where
  | UNKNOWN
  | ZH
  | EN
  | FR
  | DE
  | ES
  | PT
  deriving DecidableEq, Fintype

/-- The proto `ErrorType` enumeration: the two-valued error taxonomy
(`ErrorType::User`, `ErrorType::Internal`) used throughout src/server.rs. -/
inductive ErrorType where
  | User
  | Internal
  deriving DecidableEq, Fintype

/-- Embeds the `impl fmt::Display for LanguageCode` in src/server.rs
(lines 21-34): the canonical short code, with the wildcard arm returning
the empty string (hit only by `UNKNOWN`). -/
def code_to_short_string : LanguageCode → String
  | .EN => "en"
  | .ZH => "zh"
  | .FR => "fr"
  | .DE => "de"
  | .PT => "pt"
  | .ES => "es"
  | _ => ""

/-- ASCII uppercasing, the behavior of Rust `str::to_uppercase` on the
ASCII short codes (core `String.toUpper` is the same map but is not
kernel-reducible, so the character map is applied to the underlying
character list). -/
def string_to_uppercase (s : String) : String := ⟨s.data.map Char.toUpper⟩

/-- ASCII lowercasing, character by character (kernel-reducible). -/
def string_to_lowercase (s : String) : String := ⟨s.data.map Char.toLower⟩

/-- Embeds the locale-tag match inlined in `synthesize` (src/server.rs
lines 93-97): `ZH => "cmn-CN"`, `EN => "en-US"`, otherwise
`format!("{}-{}", c, c.to_uppercase())` over the short code. -/
def code_to_locale_tag : LanguageCode → String
  | .ZH => "cmn-CN"
  | .EN => "en-US"
  | c => code_to_short_string c ++ "-" ++ string_to_uppercase (code_to_short_string c)

/-- Fault surface of the translation provider
(`rusoto_translate::TranslateTextError`), the enumeration matched on in
`translate_text` (src/server.rs lines 147-154). -/
inductive TranslateTextError where
  | DetectedLanguageLowConfidence
  | InternalServer
  | InvalidRequest
  | ResourceNotFound
  | ServiceUnavailable
  | TextSizeLimitExceeded
  | TooManyRequests
  | UnsupportedLanguagePair
  | HttpDispatch
  | Credentials
  | Validation
  | ParseError
  | Unknown
  deriving DecidableEq, Fintype

/-- Fault surface of the voice-catalog call
(`rusoto_polly::DescribeVoicesError`), matched on in `get_voice_id`
(src/server.rs lines 195-200). -/
inductive DescribeVoicesError where
  | InvalidNextToken
  | ServiceFailure
  | HttpDispatch
  | Credentials
  | Validation
  | ParseError
  | Unknown
  deriving DecidableEq, Fintype

/-- Fault surface of the speech-synthesis call
(`rusoto_polly::SynthesizeSpeechError`), matched on in `synthesize_speech`
(src/server.rs lines 173-179). -/
inductive SynthesizeSpeechError where
  | InvalidSampleRate
  | InvalidSsml
  | LanguageNotSupported
  | LexiconNotFound
  | MarksNotSupportedForFormat
  | ServiceFailure
  | SsmlMarksNotSupportedForTextType
  | TextLengthExceeded
  | HttpDispatch
  | Credentials
  | Validation
  | ParseError
  | Unknown
  deriving DecidableEq, Fintype

/-- The `map_err` closure of `translate_text` (src/server.rs lines
147-154). -/
def translateTextErrorToErrorType : TranslateTextError → ErrorType
  | .InternalServer
  | .ServiceUnavailable
  | .HttpDispatch
  | .Unknown
  | .ParseError => .Internal
  | _ => .User

/-- The `map_err` closure of `get_voice_id` (src/server.rs lines
195-200). -/
def describeVoicesErrorToErrorType : DescribeVoicesError → ErrorType
  | .InvalidNextToken
  | .Validation
  | .Credentials => .User
  | _ => .Internal

/-- The `map_err` closure of `synthesize_speech` (src/server.rs lines
173-179). -/
def synthesizeSpeechErrorToErrorType : SynthesizeSpeechError → ErrorType
  | .HttpDispatch
  | .Unknown
  | .ServiceFailure
  | .ParseError => .Internal
  | _ => .User

/-- The proto `LanguageRequest` message. -/
structure LanguageRequest where
  source_language_code : LanguageCode
  target_language_code : LanguageCode
  text : String
  deriving DecidableEq

/-- The proto `TranslateResponse` message. -/
structure TranslateResponse where
  translated_text : String
  deriving DecidableEq

/-- The proto `SynthesizeResponse` message (bytes as a list of naturals). -/
structure SynthesizeResponse where
  audio_bytes : List Nat
  deriving DecidableEq

/-- `rusoto_translate::TranslateTextRequest`, the fields set in
`translate_text` (src/server.rs lines 141-145). -/
structure TranslateTextRequest where
  source_language_code : String
  target_language_code : String
  text : String
  deriving DecidableEq

/-- The translation provider's successful response (the field consumed at
src/server.rs line 155). -/
structure TranslateTextOutput where
  translated_text : String
  deriving DecidableEq

/-- A provider voice record (`rusoto_polly::Voice`, the field consumed at
src/server.rs line 208). -/
structure Voice where
  id : Option String
  deriving DecidableEq

/-- `rusoto_polly::DescribeVoicesInput`, the fields set in `get_voice_id`
(src/server.rs lines 189-192). -/
structure DescribeVoicesInput where
  language_code : Option String
  next_token : Option String
  deriving DecidableEq

/-- The voice-catalog provider's successful response (the field consumed
at src/server.rs lines 201-211). -/
structure DescribeVoicesOutput where
  voices : Option (List Voice)
  deriving DecidableEq

/-- `rusoto_polly::SynthesizeSpeechInput`, the fields set in
`synthesize_speech` (src/server.rs lines 163-168); the remaining fields
are left at their defaults in the source and are not consumed. -/
structure SynthesizeSpeechInput where
  text : String
  voice_id : String
  output_format : String
  deriving DecidableEq

/-- The speech provider's successful response (the field consumed at
src/server.rs line 181). -/
structure SynthesizeSpeechOutput where
  audio_stream : Option (List Nat)
  deriving DecidableEq

/-- The external providers, modelled as oracles: each field gives the
provider's response to one outbound call. -/
structure Providers where
  translate_text_call : TranslateTextRequest → Except TranslateTextError TranslateTextOutput
  describe_voices_call : DescribeVoicesInput → Except DescribeVoicesError DescribeVoicesOutput
  synthesize_speech_call : SynthesizeSpeechInput → Except SynthesizeSpeechError SynthesizeSpeechOutput

/-- Trace entry: one outbound provider call made by an adapter, with the
exact request sent. -/
inductive AdapterCall where
  | translateText (req : TranslateTextRequest)
  | describeVoices (input : DescribeVoicesInput)
  | synthesizeSpeech (input : SynthesizeSpeechInput)
  deriving DecidableEq

/-- Whether a trace entry is a voice-catalog call. -/
def AdapterCall.isDescribeVoices : AdapterCall → Bool
  | .describeVoices _ => true
  | _ => false

/-- Whether a trace entry is a speech-synthesis call. -/
def AdapterCall.isSynthesizeSpeech : AdapterCall → Bool
  | .synthesizeSpeech _ => true
  | _ => false

/-- Embeds `LanguageService::translate_text` (src/server.rs lines
131-156): builds the provider request from the short-code renderings of
the two codes, maps provider faults through
`translateTextErrorToErrorType`, and projects `translated_text` on
success.  The second component records the single outbound call. -/
def translate_text (p : Providers)
    (source_language_code target_language_code : LanguageCode)
    (text : String) : Except ErrorType String × List AdapterCall :=
  let req : TranslateTextRequest :=
    { source_language_code := code_to_short_string source_language_code
      target_language_code := code_to_short_string target_language_code
      text := text }
  (match p.translate_text_call req with
    | .error e => .error (translateTextErrorToErrorType e)
    | .ok r => .ok r.translated_text,
   [AdapterCall.translateText req])

/-- Embeds `LanguageService::get_voice_id` (src/server.rs lines 184-212):
lists voices for the locale tag, maps faults through
`describeVoicesErrorToErrorType`, and on success takes the first voice's
id, substituting the empty string when the list is empty or the id is
absent. -/
def get_voice_id (p : Providers) (language_code : String) :
    Except ErrorType String × List AdapterCall :=
  let input : DescribeVoicesInput :=
    { language_code := some language_code, next_token := none }
  (match p.describe_voices_call input with
    | .error e => .error (describeVoicesErrorToErrorType e)
    | .ok dv_output =>
        .ok ((((dv_output.voices.getD []).take 1).map
          (fun voice => voice.id.getD "")).headD ""),
   [AdapterCall.describeVoices input])

/-- Embeds `LanguageService::synthesize_speech` (src/server.rs lines
158-182): requests mp3 audio for the text and voice, maps faults through
`synthesizeSpeechErrorToErrorType`, and on success returns the audio
stream, substituting the empty byte sequence when it is absent. -/
def synthesize_speech (p : Providers) (voice_id text : String) :
    Except ErrorType (List Nat) × List AdapterCall :=
  let input : SynthesizeSpeechInput :=
    { text := text, voice_id := voice_id, output_format := "mp3" }
  (match p.synthesize_speech_call input with
    | .error e => .error (synthesizeSpeechErrorToErrorType e)
    | .ok output => .ok (output.audio_stream.getD []),
   [AdapterCall.synthesizeSpeech input])

/-- RPC status codes used by the server (src/server.rs: only
`InvalidArgument` and `Internal` are ever produced). -/
inductive RpcStatusCode where
  | InvalidArgument
  | Internal
  deriving DecidableEq

/-- `grpcio::RpcStatus` as constructed by the server: a code and an
optional details message (always `None` in the source). -/
structure RpcStatus where
  status : RpcStatusCode
  details : Option String
  deriving DecidableEq

/-- Outcome of a unary RPC as seen by the caller: `sink.success` or
`sink.fail`. -/
inductive RpcReply (α : Type) where
  | success (resp : α)
  | fail (status : RpcStatus)
  deriving DecidableEq

/-- The `ErrorType → RpcStatus` match written in both RPC handlers
(src/server.rs lines 61-64 and 114-117). -/
def errorTypeToRpcStatus : ErrorType → RpcStatus
  | .User => { status := .InvalidArgument, details := none }
  | _ => { status := .Internal, details := none }

/-- Embeds the `translate` RPC handler (src/server.rs lines 40-69): calls
`translate_text` directly and maps its outcome to an RPC reply. -/
def translate (p : Providers) (req : LanguageRequest) :
    RpcReply TranslateResponse × List AdapterCall :=
  match translate_text p req.source_language_code req.target_language_code
      req.text with
  | (.ok translated_text, calls) =>
      (.success { translated_text := translated_text }, calls)
  | (.error e, calls) =>
      (match e with
        | .User =>
            .fail { status := RpcStatusCode.InvalidArgument, details := none }
        | _ => .fail { status := RpcStatusCode.Internal, details := none },
       calls)

/-- Embeds the `synthesize` RPC handler (src/server.rs lines 71-127):
rejects requests with an `UNKNOWN` code before any adapter call, then
chains translate → resolve voice → synthesize speech, short-circuiting on
the first error and mapping it through `errorTypeToRpcStatus`. -/
def synthesize (p : Providers) (req : LanguageRequest) :
    RpcReply SynthesizeResponse × List AdapterCall :=
  if req.target_language_code = LanguageCode.UNKNOWN
      ∨ req.source_language_code = LanguageCode.UNKNOWN then
    (.fail { status := RpcStatusCode.InvalidArgument, details := none }, [])
  else
    let language_code := code_to_locale_tag req.target_language_code
    match translate_text p req.source_language_code req.target_language_code
        req.text with
    | (.error e, c1) => (.fail (errorTypeToRpcStatus e), c1)
    | (.ok translated_text, c1) =>
      match get_voice_id p language_code with
      | (.error e, c2) => (.fail (errorTypeToRpcStatus e), c1 ++ c2)
      | (.ok voice_id, c2) =>
        match synthesize_speech p voice_id translated_text with
        | (.error e, c3) => (.fail (errorTypeToRpcStatus e), c1 ++ c2 ++ c3)
        | (.ok audio_bytes, c3) =>
            (.success { audio_bytes := audio_bytes }, c1 ++ c2 ++ c3)

/-- The `ErrorType` of the first failing stage of the synthesize chain
(none when all three stages succeed), computed from the same adapter
results the chain consumes. -/
def first_stage_error (p : Providers) (req : LanguageRequest) :
    Option ErrorType :=
  match (translate_text p req.source_language_code req.target_language_code
      req.text).1 with
  | .error e => some e
  | .ok translated_text =>
    match (get_voice_id p (code_to_locale_tag req.target_language_code)).1 with
    | .error e => some e
    | .ok voice_id =>
      match (synthesize_speech p voice_id translated_text).1 with
      | .error e => some e
      | .ok _ => none

/-- A concrete happy-path provider stub (translator answers "bonjour", one
voice named "Celine", audio bytes `[1, 2]`), used to instantiate theorems
at concrete inputs. -/
def stubProviders : Providers :=
  { translate_text_call := fun _ => .ok { translated_text := "bonjour" }
    describe_voices_call := fun _ => .ok { voices := some [{ id := some "Celine" }] }
    synthesize_speech_call := fun _ => .ok { audio_stream := some [1, 2] } }

/-- A provider stub whose translation call fails with
`ServiceUnavailable`, the other calls succeeding. -/
def failingTranslateProviders : Providers :=
  { translate_text_call := fun _ => .error .ServiceUnavailable
    describe_voices_call := fun _ => .ok { voices := some [{ id := some "Celine" }] }
    synthesize_speech_call := fun _ => .ok { audio_stream := some [1, 2] } }

/-- A provider stub whose voice-catalog call fails with `ServiceFailure`,
the other calls succeeding. -/
def failingVoicesProviders : Providers :=
  { translate_text_call := fun _ => .ok { translated_text := "bonjour" }
    describe_voices_call := fun _ => .error .ServiceFailure
    synthesize_speech_call := fun _ => .ok { audio_stream := some [1, 2] } }

/-- A provider stub returning an empty voice list and a response with no
audio payload. -/
def emptyResultsProviders : Providers :=
  { translate_text_call := fun _ => .ok { translated_text := "bonjour" }
    describe_voices_call := fun _ => .ok { voices := some [] }
    synthesize_speech_call := fun _ => .ok { audio_stream := none } }

/-- A provider stub whose translation call fails with `InvalidRequest`
(a user-origin fault), the other calls succeeding. -/
def failingUserProviders : Providers :=
  { translate_text_call := fun _ => .error .InvalidRequest
    describe_voices_call := fun _ => .ok { voices := some [] }
    synthesize_speech_call := fun _ => .ok { audio_stream := none } }

/-- A concrete English→French request. -/
def reqENFR : LanguageRequest :=
  { source_language_code := .EN, target_language_code := .FR, text := "hello" }

/-- A concrete request with an `UNKNOWN` source code. -/
def reqUnknownSrc : LanguageRequest :=
  { source_language_code := .UNKNOWN, target_language_code := .FR
    text := "hello" }

end GrpcTranslate

namespace GrpcTranslate

/-- C3: the translation adapter maps the five infrastructure faults
(internal server, service unavailable, transport/dispatch, unknown,
response-parse) to `InternalError`, and every other provider fault to
`UserError`. -/
theorem C3_translate_fault_mapping :
    (∀ e : TranslateTextError,
      translateTextErrorToErrorType e = ErrorType.Internal ↔
        (e = .InternalServer ∨ e = .ServiceUnavailable ∨ e = .HttpDispatch
          ∨ e = .Unknown ∨ e = .ParseError))
    ∧ (∀ e : TranslateTextError,
      translateTextErrorToErrorType e = ErrorType.User ↔
        (e = .DetectedLanguageLowConfidence ∨ e = .InvalidRequest
          ∨ e = .ResourceNotFound ∨ e = .TextSizeLimitExceeded
          ∨ e = .TooManyRequests ∨ e = .UnsupportedLanguagePair
          ∨ e = .Credentials ∨ e = .Validation)) := by
  decide

/-- C4: the voice-resolution adapter maps the input-origin faults (bad
pagination token, validation, credentials) to `UserError` and every other
fault to `InternalError`; the speech-synthesis adapter maps
transport/dispatch, unknown, service-failure and response-parse faults to
`InternalError` and every other fault to `UserError`. -/
theorem C4_voice_and_speech_fault_mapping :
    (∀ e : DescribeVoicesError,
      describeVoicesErrorToErrorType e = ErrorType.User ↔
        (e = .InvalidNextToken ∨ e = .Validation ∨ e = .Credentials))
    ∧ (∀ e : DescribeVoicesError,
      describeVoicesErrorToErrorType e = ErrorType.Internal ↔
        (e = .ServiceFailure ∨ e = .HttpDispatch ∨ e = .ParseError
          ∨ e = .Unknown))
    ∧ (∀ e : SynthesizeSpeechError,
      synthesizeSpeechErrorToErrorType e = ErrorType.Internal ↔
        (e = .HttpDispatch ∨ e = .Unknown ∨ e = .ServiceFailure
          ∨ e = .ParseError))
    ∧ (∀ e : SynthesizeSpeechError,
      synthesizeSpeechErrorToErrorType e = ErrorType.User ↔
        (e = .InvalidSampleRate ∨ e = .InvalidSsml ∨ e = .LanguageNotSupported
          ∨ e = .LexiconNotFound ∨ e = .MarksNotSupportedForFormat
          ∨ e = .SsmlMarksNotSupportedForTextType ∨ e = .TextLengthExceeded
          ∨ e = .Credentials ∨ e = .Validation)) := by
  decide

/-- C6: the speech locale-tag mapping returns `cmn-CN` for Mandarin,
`en-US` for English, and `{code}-{CODE uppercase}` for every other
supported code (`fr-FR`, `de-DE`, `es-ES`, `pt-PT`). -/
theorem C6_locale_tag_mapping :
    code_to_locale_tag .ZH = "cmn-CN"
    ∧ code_to_locale_tag .EN = "en-US"
    ∧ code_to_locale_tag .FR = "fr-FR"
    ∧ code_to_locale_tag .DE = "de-DE"
    ∧ code_to_locale_tag .ES = "es-ES"
    ∧ code_to_locale_tag .PT = "pt-PT"
    ∧ (∀ c : LanguageCode,
        c = .FR ∨ c = .DE ∨ c = .ES ∨ c = .PT →
          code_to_locale_tag c =
            code_to_short_string c ++ "-"
              ++ string_to_uppercase (code_to_short_string c)) := by
  refine ⟨by decide, by decide, by decide, by decide, by decide, by decide, ?_⟩
  intro c h
  rcases h with h | h | h | h <;> subst h <;> rfl

/-- Witness for C6: the generic rule evaluated at French. -/
theorem C6_locale_tag_mapping_witness :
    code_to_locale_tag .FR =
      code_to_short_string .FR ++ "-"
        ++ string_to_uppercase (code_to_short_string .FR) :=
  C6_locale_tag_mapping.2.2.2.2.2.2 .FR (Or.inl rfl)

/-- C8: the short-code mapping yields the canonical two-letter lowercase
codes for the six supported languages, each of length two and lowercase,
and is injective on non-Unknown codes. -/
theorem C8_short_code_mapping :
    code_to_short_string .EN = "en"
    ∧ code_to_short_string .ZH = "zh"
    ∧ code_to_short_string .FR = "fr"
    ∧ code_to_short_string .DE = "de"
    ∧ code_to_short_string .ES = "es"
    ∧ code_to_short_string .PT = "pt"
    ∧ (∀ c : LanguageCode, c ≠ .UNKNOWN →
        (code_to_short_string c).length = 2
        ∧ string_to_lowercase (code_to_short_string c) = code_to_short_string c)
    ∧ (∀ c₁ c₂ : LanguageCode, c₁ ≠ .UNKNOWN → c₂ ≠ .UNKNOWN →
        code_to_short_string c₁ = code_to_short_string c₂ → c₁ = c₂) := by
  refine ⟨rfl, rfl, rfl, rfl, rfl, rfl, ?_, ?_⟩ <;> decide

/-- Witness for C8: the length/lowercase part at English, and injectivity
applied at a concrete pair. -/
theorem C8_short_code_mapping_witness :
    ((code_to_short_string LanguageCode.EN).length = 2
      ∧ string_to_lowercase (code_to_short_string LanguageCode.EN)
          = code_to_short_string LanguageCode.EN)
    ∧ LanguageCode.ZH = LanguageCode.ZH :=
  ⟨C8_short_code_mapping.2.2.2.2.2.2.1 .EN (by decide),
   C8_short_code_mapping.2.2.2.2.2.2.2 .ZH .ZH (by decide) (by decide) rfl⟩

/-- C9 counterexample: `code_to_short_string` does not fail or panic on
`UNKNOWN`; it returns a perfectly normal string value, the empty string
(the wildcard arm of the `Display` impl). -/
theorem C9_counterexample : code_to_short_string LanguageCode.UNKNOWN = "" :=
  rfl

/-- C9 (amended): `code_to_short_string` is total and never fails; it
returns the empty string exactly for `UNKNOWN`, and a non-empty canonical
code for every other value. -/
theorem C9_unknown_empty_string :
    ∀ c : LanguageCode,
      (code_to_short_string c = "" ↔ c = LanguageCode.UNKNOWN) := by
  decide

/-- C1: a Synthesize request whose source or target code is `UNKNOWN`
fails with the user-error status (invalid-argument, no details) and the
adapter-call trace is empty: no translation, voice-resolution or
speech-synthesis call is attempted. -/
theorem C1_unknown_code_rejected_before_any_call
    (p : Providers) (req : LanguageRequest)
    (h : req.source_language_code = LanguageCode.UNKNOWN
      ∨ req.target_language_code = LanguageCode.UNKNOWN) :
    synthesize p req = (.fail (errorTypeToRpcStatus .User), []) := by
  unfold synthesize
  rcases h with h | h <;> simp [h, errorTypeToRpcStatus]

/-- Witness for C1: a concrete request with an `UNKNOWN` source code. -/
theorem C1_unknown_code_rejected_witness :
    synthesize stubProviders reqUnknownSrc
      = (.fail (errorTypeToRpcStatus .User), []) :=
  C1_unknown_code_rejected_before_any_call stubProviders reqUnknownSrc
    (Or.inl rfl)

/-- C2: the synthesize chain short-circuits.  If the translation provider
fails, the reply is that fault's mapped kind (unchanged) and the trace
holds only the translation call — no voice-resolution or speech-synthesis
call; if translation succeeds and the voice catalog fails, the reply is
that fault's mapped kind and the trace holds only those two calls — no
speech-synthesis call. -/
theorem C2_chain_short_circuits (p : Providers) (req : LanguageRequest)
    (hs : req.source_language_code ≠ LanguageCode.UNKNOWN)
    (ht : req.target_language_code ≠ LanguageCode.UNKNOWN) :
    (∀ e, p.translate_text_call
        { source_language_code := code_to_short_string req.source_language_code
          target_language_code := code_to_short_string req.target_language_code
          text := req.text } = .error e →
      synthesize p req =
        (.fail (errorTypeToRpcStatus (translateTextErrorToErrorType e)),
         [AdapterCall.translateText
           { source_language_code := code_to_short_string req.source_language_code
             target_language_code := code_to_short_string req.target_language_code
             text := req.text }]))
    ∧ (∀ r e, p.translate_text_call
        { source_language_code := code_to_short_string req.source_language_code
          target_language_code := code_to_short_string req.target_language_code
          text := req.text } = .ok r →
      p.describe_voices_call
        { language_code := some (code_to_locale_tag req.target_language_code)
          next_token := none } = .error e →
      synthesize p req =
        (.fail (errorTypeToRpcStatus (describeVoicesErrorToErrorType e)),
         [AdapterCall.translateText
           { source_language_code := code_to_short_string req.source_language_code
             target_language_code := code_to_short_string req.target_language_code
             text := req.text },
          AdapterCall.describeVoices
           { language_code := some (code_to_locale_tag req.target_language_code)
             next_token := none }])) := by
  constructor
  · intro e h1
    unfold synthesize translate_text
    rw [if_neg (not_or.mpr ⟨ht, hs⟩)]
    simp [h1]
  · intro r e h1 h2
    unfold synthesize translate_text get_voice_id
    rw [if_neg (not_or.mpr ⟨ht, hs⟩)]
    simp [h1, h2]

/-- Witness for C2: the first conjunct at a concrete request against a
provider whose translation call fails with `ServiceUnavailable`. -/
theorem C2_chain_short_circuits_witness :
    synthesize failingTranslateProviders reqENFR =
      (.fail (errorTypeToRpcStatus
        (translateTextErrorToErrorType .ServiceUnavailable)),
       [AdapterCall.translateText
         { source_language_code :=
             code_to_short_string reqENFR.source_language_code
           target_language_code :=
             code_to_short_string reqENFR.target_language_code
           text := reqENFR.text }]) :=
  (C2_chain_short_circuits failingTranslateProviders reqENFR
    (by decide) (by decide)).1 .ServiceUnavailable rfl

/-- Every `RpcStatus` produced from an `ErrorType` carries no details
message. -/
theorem errorTypeToRpcStatus_details (k : ErrorType) :
    (errorTypeToRpcStatus k).details = none := by
  cases k <;> rfl

/-- C5: in both operations every failure reply carries exactly the status
determined by the surfaced `ErrorType` — invalid-argument for `User`,
internal for `Internal` — and never carries a details payload. -/
theorem C5_rpc_status_determined_by_error_kind
    (p : Providers) (req : LanguageRequest) :
    (∀ e, (translate_text p req.source_language_code req.target_language_code
        req.text).1 = .error e →
      (translate p req).1 = .fail (errorTypeToRpcStatus e))
    ∧ (req.source_language_code ≠ LanguageCode.UNKNOWN →
       req.target_language_code ≠ LanguageCode.UNKNOWN →
       ∀ e, first_stage_error p req = some e →
        (synthesize p req).1 = .fail (errorTypeToRpcStatus e))
    ∧ (∀ st, (translate p req).1 = .fail st → st.details = none)
    ∧ (∀ st, (synthesize p req).1 = .fail st → st.details = none)
    ∧ errorTypeToRpcStatus .User
        = { status := RpcStatusCode.InvalidArgument, details := none }
    ∧ errorTypeToRpcStatus .Internal
        = { status := RpcStatusCode.Internal, details := none } := by
  refine ⟨?_, ?_, ?_, ?_, rfl, rfl⟩
  · intro e h1
    simp only [translate_text] at h1
    simp only [translate, translate_text]
    rcases ho : p.translate_text_call
        { source_language_code := code_to_short_string req.source_language_code
          target_language_code := code_to_short_string req.target_language_code
          text := req.text } with e1 | r
    · rw [ho] at h1
      dsimp only at h1 ⊢
      injection h1 with h
      subst h
      cases translateTextErrorToErrorType e1 <;> rfl
    · rw [ho] at h1
      dsimp only at h1
      exact Except.noConfusion h1
  · intro hs ht e hfse
    simp only [first_stage_error, translate_text, get_voice_id,
      synthesize_speech] at hfse
    simp only [synthesize, translate_text, get_voice_id, synthesize_speech]
    rw [if_neg (not_or.mpr ⟨ht, hs⟩)]
    rcases ho1 : p.translate_text_call
        { source_language_code := code_to_short_string req.source_language_code
          target_language_code := code_to_short_string req.target_language_code
          text := req.text } with e1 | r
    · rw [ho1] at hfse
      dsimp only at hfse ⊢
      injection hfse with h
      rw [h]
    · rw [ho1] at hfse
      dsimp only at hfse ⊢
      rcases ho2 : p.describe_voices_call
          { language_code := some (code_to_locale_tag req.target_language_code)
            next_token := none } with e2 | dv
      · rw [ho2] at hfse
        dsimp only at hfse ⊢
        injection hfse with h
        rw [h]
      · rw [ho2] at hfse
        dsimp only at hfse ⊢
        rcases ho3 : p.synthesize_speech_call
            { text := r.translated_text
              voice_id := (((dv.voices.getD []).take 1).map
                (fun voice => voice.id.getD "")).headD ""
              output_format := "mp3" } with e3 | out
        · rw [ho3] at hfse
          dsimp only at hfse ⊢
          injection hfse with h
          rw [h]
        · rw [ho3] at hfse
          dsimp only at hfse
          exact Option.noConfusion hfse
  · intro st hst
    simp only [translate, translate_text] at hst
    rcases ho : p.translate_text_call
        { source_language_code := code_to_short_string req.source_language_code
          target_language_code := code_to_short_string req.target_language_code
          text := req.text } with e1 | r
    · rw [ho] at hst
      dsimp only at hst
      cases h2 : translateTextErrorToErrorType e1
      · rw [h2] at hst
        dsimp only at hst
        injection hst with h3
        rw [← h3]
      · rw [h2] at hst
        dsimp only at hst
        injection hst with h3
        rw [← h3]
    · rw [ho] at hst
      dsimp only at hst
      exact RpcReply.noConfusion hst
  · intro st hst
    by_cases hc : req.target_language_code = LanguageCode.UNKNOWN
        ∨ req.source_language_code = LanguageCode.UNKNOWN
    · simp only [synthesize] at hst
      rw [if_pos hc] at hst
      dsimp only at hst
      injection hst with h3
      rw [← h3]
    · simp only [synthesize, translate_text, get_voice_id,
        synthesize_speech] at hst
      rw [if_neg hc] at hst
      rcases ho1 : p.translate_text_call
          { source_language_code :=
              code_to_short_string req.source_language_code
            target_language_code :=
              code_to_short_string req.target_language_code
            text := req.text } with e1 | r
      · rw [ho1] at hst
        dsimp only at hst
        injection hst with h3
        rw [← h3]
        exact errorTypeToRpcStatus_details _
      · rw [ho1] at hst
        dsimp only at hst
        rcases ho2 : p.describe_voices_call
            { language_code :=
                some (code_to_locale_tag req.target_language_code)
              next_token := none } with e2 | dv
        · rw [ho2] at hst
          dsimp only at hst
          injection hst with h3
          rw [← h3]
          exact errorTypeToRpcStatus_details _
        · rw [ho2] at hst
          dsimp only at hst
          rcases ho3 : p.synthesize_speech_call
              { text := r.translated_text
                voice_id := (((dv.voices.getD []).take 1).map
                  (fun voice => voice.id.getD "")).headD ""
                output_format := "mp3" } with e3 | out
          · rw [ho3] at hst
            dsimp only at hst
            injection hst with h3
            rw [← h3]
            exact errorTypeToRpcStatus_details _
          · rw [ho3] at hst
            dsimp only at hst
            exact RpcReply.noConfusion hst

/-- Witness for C5: the translation-failure conjunct at a concrete
request and provider, plus the payload-free conjunct at the resulting
status. -/
theorem C5_rpc_status_witness :
    (translate failingTranslateProviders reqENFR).1
      = .fail (errorTypeToRpcStatus
          (translateTextErrorToErrorType .ServiceUnavailable)) :=
  (C5_rpc_status_determined_by_error_kind failingTranslateProviders
    reqENFR).1 (translateTextErrorToErrorType .ServiceUnavailable) rfl

/-- C7: when the voice catalog returns zero voices, `get_voice_id`
succeeds with the empty-string voice id, and the speech-synthesis call is
still made with that empty id; when the speech provider's response has no
audio payload, `synthesize_speech` succeeds with the empty byte
sequence. -/
theorem C7_permissive_empty_results (p : Providers) (req : LanguageRequest)
    (hs : req.source_language_code ≠ LanguageCode.UNKNOWN)
    (ht : req.target_language_code ≠ LanguageCode.UNKNOWN) :
    (∀ dv, p.describe_voices_call
        { language_code := some (code_to_locale_tag req.target_language_code)
          next_token := none } = .ok dv →
      dv.voices.getD [] = [] →
      ((get_voice_id p (code_to_locale_tag req.target_language_code)).1
          = .ok ""
        ∧ ∀ r, p.translate_text_call
            { source_language_code :=
                code_to_short_string req.source_language_code
              target_language_code :=
                code_to_short_string req.target_language_code
              text := req.text } = .ok r →
          AdapterCall.synthesizeSpeech
            { text := r.translated_text, voice_id := ""
              output_format := "mp3" }
            ∈ (synthesize p req).2))
    ∧ (∀ voice_id text, p.synthesize_speech_call
          { text := text, voice_id := voice_id, output_format := "mp3" }
            = .ok { audio_stream := none } →
        (synthesize_speech p voice_id text).1 = .ok []) := by
  constructor
  · intro dv hdv hempty
    constructor
    · simp only [get_voice_id]
      rw [hdv]
      simp [hempty]
    · intro r hr
      simp only [synthesize, translate_text, get_voice_id, synthesize_speech]
      rw [if_neg (not_or.mpr ⟨ht, hs⟩), hr, hdv]
      simp only [hempty]
      simp only [List.take_nil, List.map_nil, List.headD_nil]
      rcases p.synthesize_speech_call
          { text := r.translated_text, voice_id := ""
            output_format := "mp3" } with e3 | out <;> simp
  · intro voice_id text hsp
    simp only [synthesize_speech]
    rw [hsp]
    rfl

/-- Witness for C7: against the empty-results provider stub, resolving a
voice yields the empty id, the speech call with the empty id appears in
the trace, and synthesis of a payload-free response yields empty bytes. -/
theorem C7_permissive_empty_results_witness :
    ((get_voice_id emptyResultsProviders
        (code_to_locale_tag reqENFR.target_language_code)).1 = .ok ""
      ∧ AdapterCall.synthesizeSpeech
          { text := "bonjour", voice_id := "", output_format := "mp3" }
          ∈ (synthesize emptyResultsProviders reqENFR).2)
    ∧ (synthesize_speech emptyResultsProviders "" "bonjour").1 = .ok [] := by
  have h := C7_permissive_empty_results emptyResultsProviders reqENFR
    (by decide) (by decide)
  exact ⟨⟨(h.1 { voices := some [] } rfl rfl).1,
          (h.1 { voices := some [] } rfl rfl).2
            { translated_text := "bonjour" } rfl⟩,
         h.2 "" "bonjour" rfl⟩

/-- C10: the Translate operation performs no Unknown-code validation of
its own: the translation provider is always called exactly once, with the
short-code rendering of each code (the empty string for `UNKNOWN`), and
every failure reply is the mapped kind of a fault returned by the
provider, never a local check. -/
theorem C10_translate_no_local_validation
    (p : Providers) (req : LanguageRequest) :
    (translate p req).2 =
      [AdapterCall.translateText
        { source_language_code := code_to_short_string req.source_language_code
          target_language_code := code_to_short_string req.target_language_code
          text := req.text }]
    ∧ (req.source_language_code = LanguageCode.UNKNOWN →
        code_to_short_string req.source_language_code = "")
    ∧ (req.target_language_code = LanguageCode.UNKNOWN →
        code_to_short_string req.target_language_code = "")
    ∧ (∀ st, (translate p req).1 = .fail st →
        ∃ e, p.translate_text_call
            { source_language_code :=
                code_to_short_string req.source_language_code
              target_language_code :=
                code_to_short_string req.target_language_code
              text := req.text } = .error e
          ∧ st = errorTypeToRpcStatus (translateTextErrorToErrorType e)) := by
  refine ⟨?_, ?_, ?_, ?_⟩
  · simp only [translate, translate_text]
    rcases p.translate_text_call
        { source_language_code := code_to_short_string req.source_language_code
          target_language_code := code_to_short_string req.target_language_code
          text := req.text } with e1 | r
    · rfl
    · rfl
  · intro h
    rw [h]
    rfl
  · intro h
    rw [h]
    rfl
  · intro st hst
    simp only [translate, translate_text] at hst
    rcases ho : p.translate_text_call
        { source_language_code := code_to_short_string req.source_language_code
          target_language_code := code_to_short_string req.target_language_code
          text := req.text } with e1 | r
    · rw [ho] at hst
      dsimp only at hst
      refine ⟨e1, rfl, ?_⟩
      cases h2 : translateTextErrorToErrorType e1
      · rw [h2] at hst
        dsimp only at hst
        injection hst with h3
        exact h3.symm
      · rw [h2] at hst
        dsimp only at hst
        injection hst with h3
        exact h3.symm
    · rw [ho] at hst
      dsimp only at hst
      exact RpcReply.noConfusion hst

/-- Witness for C10: a request with an `UNKNOWN` source code against a
provider failing with `InvalidRequest` — the failure is the provider's
mapped fault, and the Unknown code was rendered as the empty string. -/
theorem C10_translate_no_local_validation_witness :
    (∃ e, failingUserProviders.translate_text_call
        { source_language_code :=
            code_to_short_string reqUnknownSrc.source_language_code
          target_language_code :=
            code_to_short_string reqUnknownSrc.target_language_code
          text := reqUnknownSrc.text } = .error e
      ∧ ({ status := RpcStatusCode.InvalidArgument, details := none }
            : RpcStatus)
          = errorTypeToRpcStatus (translateTextErrorToErrorType e))
    ∧ code_to_short_string reqUnknownSrc.source_language_code = "" :=
  ⟨(C10_translate_no_local_validation failingUserProviders reqUnknownSrc).2.2.2
      { status := RpcStatusCode.InvalidArgument, details := none } rfl,
   (C10_translate_no_local_validation failingUserProviders reqUnknownSrc).2.1
      rfl⟩

end GrpcTranslate
